import Mathlib

/-!
Shallow embedding of the pisense joystick driver.

The embedded code is `src/pisense/stick.py` (class `SenseStick`) together
with the `rotation` passthrough property of the `SenseHAT` facade in
`src/pisense/__init__.py`.  Pure parsing and queue logic become Lean
functions; the mutable object state becomes an explicit `StickState`
record threaded through the operations; Python exceptions become
`Except PyError` results or dedicated outcome constructors.
-/

/-- Joystick direction labels: the values of the code-to-direction table in
`_read_stick` (stick.py lines 157-163). -/
inductive Direction
  | up
  | down
  | left
  | right
  | enter
  deriving DecidableEq, Repr

/-- Event actions: the values of the value-to-action table in `_read_stick`
(stick.py lines 164-168). -/
inductive StickAction
  | pressed
  | released
  | held
  deriving DecidableEq, Repr

/-- `InputEvent` namedtuple (stick.py line 62).  The float timestamp is
modelled as a rational. -/
structure InputEvent where
  timestamp : Rat
  direction : Direction
  action : StickAction
  deriving DecidableEq, Repr

/-- `SenseStick.EV_KEY = 0x01` (stick.py line 83). -/
def EV_KEY : Nat := 1

/-- `SenseStick.STATE_RELEASE = 0` (stick.py line 85). -/
def STATE_RELEASE : Nat := 0

/-- `SenseStick.STATE_PRESS = 1` (stick.py line 86). -/
def STATE_PRESS : Nat := 1

/-- `SenseStick.STATE_HOLD = 2` (stick.py line 87). -/
def STATE_HOLD : Nat := 2

/-- `SenseStick.KEY_UP = 103` (stick.py line 89). -/
def KEY_UP : Nat := 103

/-- `SenseStick.KEY_LEFT = 105` (stick.py line 90). -/
def KEY_LEFT : Nat := 105

/-- `SenseStick.KEY_RIGHT = 106` (stick.py line 91). -/
def KEY_RIGHT : Nat := 106

/-- `SenseStick.KEY_DOWN = 108` (stick.py line 92). -/
def KEY_DOWN : Nat := 108

/-- `SenseStick.KEY_ENTER = 28` (stick.py line 93). -/
def KEY_ENTER : Nat := 28

/-- One unpacked binary input record, `struct.unpack('llHHI', ...)`
(stick.py lines 142-148): two signed longs (timestamp seconds and
microseconds), two unsigned shorts (type, code) and an unsigned int
(value). -/
structure RawRecord where
  tv_sec : Int
  tv_usec : Int
  type : Nat
  code : Nat
  value : Nat
  deriving DecidableEq, Repr

/-- The fixed 5-entry code-to-direction dict of `_read_stick`
(stick.py lines 157-163); `none` models the `KeyError` a missing key
raises. -/
def directionOfCode (code : Nat) : Option Direction :=
  if code = KEY_UP then some .up
  else if code = KEY_DOWN then some .down
  else if code = KEY_LEFT then some .left
  else if code = KEY_RIGHT then some .right
  else if code = KEY_ENTER then some .enter
  else none

/-- The fixed value-to-action dict of `_read_stick` (stick.py lines
164-168); `none` models the `KeyError` a missing key raises. -/
def actionOfValue (value : Nat) : Option StickAction :=
  if value = STATE_PRESS then some .pressed
  else if value = STATE_RELEASE then some .released
  else if value = STATE_HOLD then some .held
  else none

/-- Python's `queue.Queue.full()`: `0 < maxsize <= qsize()`.  A maxsize of
0 means an unbounded queue that is never full.  The queue contents are a
list with the oldest element first. -/
def queueFull (maxsize : Nat) (q : List α) : Bool :=
  decide (0 < maxsize ∧ maxsize ≤ q.length)

/-- The overflow-then-insert step of `_read_stick` (stick.py lines
150-155, 169): when the buffer is full, warn `SenseStickBufferFull` and
discard the oldest element with `get()`, then `put` the new element.
Returns the new queue contents and whether the advisory was emitted. -/
def enqueueEvent (maxsize : Nat) (q : List α) (x : α) : List α × Bool :=
  if queueFull maxsize q then (q.drop 1 ++ [x], true) else (q ++ [x], false)

/-- A sequence of `enqueueEvent` pushes, returning the final queue contents
and the number of buffer-full advisories emitted. -/
def enqueueAll (maxsize : Nat) (q : List α) : List α → List α × Nat
  | [] => (q, 0)
  | x :: xs =>
    let p := enqueueEvent maxsize q x
    let rest := enqueueAll maxsize p.1 xs
    (rest.1, (if p.2 then 1 else 0) + rest.2)

/-- The Python exceptions the embedded code can raise. -/
inductive PyError
  | attributeError
  | valueError
  | keyError
  | nameError
  | empty
  deriving DecidableEq, Repr

/-- The mutable state of a `SenseStick` object, over an abstract handler
type `H`.  `rotate?` is the `_rotate` attribute (absent until first
assigned); `rotation?` is the plain `rotation` attribute the `SenseHAT`
facade writes (stick.py defines no such property); `readThread` and
`callbacksThread` record whether `_read_thread` / `_callbacks_thread`
hold a thread object; `closing` and `callbacksClose` are the `_closing`
and `_callbacks_close` events; `callbacks` is the `_callbacks` dict. -/
structure StickState (H : Type) where
  rotate? : Option Int
  rotation? : Option Int
  maxEvents : Nat
  buffer : List InputEvent
  readThread : Bool
  callbacksThread : Bool
  closing : Bool
  callbacksClose : Bool
  callbacks : Direction → Option H

/-- `SenseStick.__init__` (stick.py lines 95-106): empty callbacks dict, no
callbacks thread, cleared events, empty bounded buffer, reader thread
started.  `_rotate` is never assigned here. -/
def initState (H : Type) (maxEvents : Nat) : StickState H :=
  { rotate? := none
    rotation? := none
    maxEvents := maxEvents
    buffer := []
    readThread := true
    callbacksThread := false
    closing := false
    callbacksClose := false
    callbacks := fun _ => none }

/-- `SenseStick.close` (stick.py lines 108-115): when `_read_thread` is
set, signal `_closing`, join the reader thread, join the callbacks thread
when present, and clear both thread handles; otherwise do nothing.
Thread joins are no-ops on the state. -/
def close (s : StickState H) : StickState H :=
  if s.readThread then
    { s with closing := true, readThread := false, callbacksThread := false }
  else s

/-- `SenseStick._get_rotate` (stick.py lines 200-201): returns `_rotate`,
raising `AttributeError` when the attribute was never assigned. -/
def getRotate (s : StickState H) : Except PyError Int :=
  match s.rotate? with
  | none => .error .attributeError
  | some v => .ok v

/-- `SenseStick._set_rotate` (stick.py lines 202-205): `if value % 90:
raise ValueError(...)` then `self._rotate = value % 360`.  Python's `%`
with a positive modulus agrees with `Int.emod`. -/
def setRotate (s : StickState H) (v : Int) : Except PyError (StickState H) :=
  if v % 90 ≠ 0 then .error .valueError
  else .ok { s with rotate? := some (v % 360) }

/-- Python's `Queue.get(timeout=t)` with a finite timeout, in the
sequential model where no producer runs during the wait: returns the
oldest element and the remaining queue, or raises `Empty` when the queue
stays empty through the timeout.  It does not return `None`. -/
def queueGetTimeout (q : List α) : Except PyError (α × List α) :=
  match q with
  | [] => .error .empty
  | x :: xs => .ok (x, xs)

/-- `SenseStick.read` (stick.py lines 208-215): warn
`SenseStickCallbackRead` when a callbacks thread exists, then
`self._buffer.get(timeout=timeout)`, catching `Empty` and returning
`None`.  Result: new state, the optional event, and whether the
contention advisory was emitted. -/
def stickRead (s : StickState H) : StickState H × Option InputEvent × Bool :=
  match queueGetTimeout s.buffer with
  | .ok (e, rest) => ({ s with buffer := rest }, some e, s.callbacksThread)
  | .error _ => (s, none, s.callbacksThread)

/-- What one iteration of the `_run_callbacks` loop does. -/
inductive DispatchOutcome (H : Type)
  | exitLoop
  | emptyRaised
  | handled (h : H) (e : InputEvent)
  | staleInvoke (h : H) (e : InputEvent)
  | unboundLocal
  deriving DecidableEq, Repr

/-- One iteration of the `_run_callbacks` loop (stick.py lines 173-182).
`cbLocal` is the function-local variable `cb`, which persists across
iterations of the `while` loop (`none` before its first binding).
The loop condition checks both shutdown events; the body calls
`self._buffer.get(timeout=0.1)` with no `Empty` handler, so an empty
buffer raises `Empty` out of the loop (`emptyRaised`).  On an event, the
dict lookup under the lock either binds `cb` (`handled`), or raises
`KeyError` which is swallowed by `pass` — after which `cb(event)` still
runs: with a previously bound `cb` it invokes that stale handler
(`staleInvoke`), otherwise `cb` is an unbound local and the call raises
`NameError` (`unboundLocal`).  Returns the new state, the new `cb`
local, and the outcome. -/
def runCallbacksIter (s : StickState H) (cbLocal : Option H) :
    StickState H × Option H × DispatchOutcome H :=
  if s.callbacksClose || s.closing then (s, cbLocal, .exitLoop)
  else
    match queueGetTimeout s.buffer with
    | .error _ => (s, cbLocal, .emptyRaised)
    | .ok (e, rest) =>
      let s' := { s with buffer := rest }
      match s.callbacks e.direction with
      | some h => (s', some h, .handled h e)
      | none =>
        match cbLocal with
        | some h => (s', cbLocal, .staleInvoke h e)
        | none => (s', none, .unboundLocal)

/-- Truthiness of the `_callbacks` dict (`if self._callbacks`): at least
one direction has a registered handler. -/
def callbacksNonempty (s : StickState H) : Bool :=
  (s.callbacks .up).isSome || (s.callbacks .down).isSome ||
  (s.callbacks .left).isSome || (s.callbacks .right).isSome ||
  (s.callbacks .enter).isSome

/-- `SenseStick._start_stop_callbacks` (stick.py lines 184-194): under the
lock, start a callbacks thread (clearing `_callbacks_close`) when the dict
is non-empty and no thread exists; signal `_callbacks_close`, join, and
clear the handle when the dict is empty and a thread exists. -/
def startStopCallbacks (s : StickState H) : StickState H :=
  if callbacksNonempty s && !s.callbacksThread then
    { s with callbacksClose := false, callbacksThread := true }
  else if !(callbacksNonempty s) && s.callbacksThread then
    { s with callbacksClose := true, callbacksThread := false }
  else s

/-- One assignment to a `when_up`/`when_down`/`when_left`/`when_right`/
`when_enter` setter: `some h` assigns a (truthy) handler, `none` models
assigning `None`, which pops the entry. -/
structure WhenOp (H : Type) where
  dir : Direction
  handler : Option H

/-- A `when_*` setter (stick.py lines 222-229 and its four copies): under
the lock, store or pop the handler for the direction, then call
`_start_stop_callbacks`. -/
def applyWhen (s : StickState H) (op : WhenOp H) : StickState H :=
  startStopCallbacks
    { s with callbacks := fun d => if d = op.dir then op.handler else s.callbacks d }

/-- Outcome of processing one raw record in `_read_stick`. -/
inductive StepOutcome
  | skipped
  | enqueued (e : InputEvent) (warned : Bool)
  | keyErr (warned : Bool)
  deriving DecidableEq, Repr

/-- The record-processing body of the `_read_stick` loop (stick.py lines
141-169) on one unpacked record.  A record whose type is not `EV_KEY` is
discarded.  For a key record the buffer-full check and eviction (lines
150-154) happen before the `InputEvent` is constructed; then the
direction and action dict lookups run — an unmapped code or value raises
`KeyError` (`keyErr`) — and the event with timestamp
`tv_sec + tv_usec / 1000000` is put on the buffer.  The stored `_rotate`
is not consulted anywhere in this body. -/
def readStickStep (s : StickState H) (r : RawRecord) : StickState H × StepOutcome :=
  if r.type = EV_KEY then
    let warned := queueFull s.maxEvents s.buffer
    let q0 := if warned then s.buffer.drop 1 else s.buffer
    match directionOfCode r.code, actionOfValue r.value with
    | some d, some a =>
      let e : InputEvent :=
        { timestamp := (r.tv_sec : Rat) + (r.tv_usec : Rat) / 1000000
          direction := d
          action := a }
      ({ s with buffer := q0 ++ [e] }, .enqueued e warned)
    | _, _ => ({ s with buffer := q0 }, .keyErr warned)
  else (s, .skipped)

/-- Modelled from the spec: rotation is "a logical remapping of physical
direction labels by a multiple-of-90-degrees offset" (glossary, section
4.5).  One 90-degree step sends up to right, right to down, down to left,
left to up; `enter` (the press of the stick itself) is fixed by any
rotation.  No code under src/ consumes the stored rotation when
interpreting raw records, so the remapping the spec describes is stated
here from its words. -/
def rotateQuarter : Direction → Direction
  | .up => .right
  | .right => .down
  | .down => .left
  | .left => .up
  | .enter => .enter

/-- Modelled from the spec: the direction a record should yield under a
stored rotation `r` (a multiple of 90), relative to the direction it
yields under rotation 0. -/
def rotateDirection (r : Int) (d : Direction) : Direction :=
  rotateQuarter^[(r % 360).toNat / 90] d

/-- The `SenseHAT.rotation` setter's effect on the stick
(`__init__.py` lines 75-78): `self._stick.rotation = value`.  `SenseStick`
defines no `rotation` property, so this is a plain instance-attribute
write: no validation, no normalization, and `_rotate` untouched.  The
preceding `self._screen.rotation = value` is out of scope (screen.py is
not part of the embedded sources; per the spec the facade "merely
aggregates these four subsystems and forwards two passthrough
properties"). -/
def facadeSetRotation (s : StickState H) (v : Int) : StickState H :=
  { s with rotation? := some v }

/-- A state whose dispatch thread is running with a handler registered for
`up` and an empty buffer. -/
def dispatchEmptyState : StickState Nat :=
  { initState Nat 100 with
      callbacksThread := true
      callbacks := fun d => if d = .up then some 1 else none }

/-- A state with handlers registered for `up` and `down` only and a single
queued `left` event. -/
def upDownLeftState : StickState Nat :=
  { initState Nat 100 with
      callbacksThread := true
      buffer := [{ timestamp := 0, direction := .left, action := .pressed }]
      callbacks := fun d =>
        if d = .up then some 1 else if d = .down then some 2 else none }

/-- A raw record for a press of the up key. -/
def upRecord : RawRecord :=
  { tv_sec := 0, tv_usec := 0, type := EV_KEY, code := KEY_UP, value := STATE_PRESS }

/-- The event `upRecord` parses to. -/
def upEvent : InputEvent :=
  { timestamp := ((0 : Int) : Rat) + ((0 : Int) : Rat) / 1000000
    direction := .up
    action := .pressed }

/-- A raw record for a press of the down key: type=EV_KEY, code=108,
value=1, at 5.25 seconds. -/
def downRecord : RawRecord :=
  { tv_sec := 5, tv_usec := 250000, type := EV_KEY, code := KEY_DOWN, value := STATE_PRESS }

/-- The event `downRecord` parses to. -/
def downEvent : InputEvent :=
  { timestamp := ((5 : Int) : Rat) + ((250000 : Int) : Rat) / 1000000
    direction := .down
    action := .pressed }

/-- Three concrete events for exercising the overflow policy. -/
def sampleEvents : List InputEvent :=
  [ { timestamp := 0, direction := .up, action := .pressed }
  , { timestamp := 1, direction := .up, action := .held }
  , { timestamp := 2, direction := .up, action := .released } ]

/-! ## Helper lemmas -/

/-- `_start_stop_callbacks` leaves the callbacks dict untouched. -/
theorem startStopCallbacks_callbacks (s : StickState H) :
    (startStopCallbacks s).callbacks = s.callbacks := by
  simp only [startStopCallbacks]
  split
  · rfl
  · split
    · rfl
    · rfl

/-- After `_start_stop_callbacks`, a callbacks thread exists exactly when
the callbacks dict is non-empty. -/
theorem startStopCallbacks_thread (s : StickState H) :
    (startStopCallbacks s).callbacksThread =
      callbacksNonempty (startStopCallbacks s) := by
  cases hne : callbacksNonempty s with
  | true =>
    cases ht : s.callbacksThread with
    | true =>
      have hs : startStopCallbacks s = s := by
        simp [startStopCallbacks, hne, ht]
      rw [hs, ht, hne]
    | false =>
      have hs : startStopCallbacks s =
          { s with callbacksClose := false, callbacksThread := true } := by
        simp [startStopCallbacks, hne, ht]
      rw [hs]
      show true = callbacksNonempty s
      exact hne.symm
  | false =>
    cases ht : s.callbacksThread with
    | true =>
      have hs : startStopCallbacks s =
          { s with callbacksClose := true, callbacksThread := false } := by
        simp [startStopCallbacks, hne, ht]
      rw [hs]
      show false = callbacksNonempty s
      exact hne.symm
    | false =>
      have hs : startStopCallbacks s = s := by
        simp [startStopCallbacks, hne, ht]
      rw [hs, ht, hne]

/-- A `when_*` setter re-establishes the thread-iff-nonempty invariant
unconditionally. -/
theorem applyWhen_thread (s : StickState H) (op : WhenOp H) :
    (applyWhen s op).callbacksThread = callbacksNonempty (applyWhen s op) :=
  startStopCallbacks_thread _

/-- The thread-iff-nonempty invariant is preserved along any sequence of
`when_*` setter calls. -/
theorem foldl_applyWhen_thread (ops : List (WhenOp H)) (s : StickState H)
    (hs : s.callbacksThread = callbacksNonempty s) :
    (ops.foldl applyWhen s).callbacksThread =
      callbacksNonempty (ops.foldl applyWhen s) := by
  induction ops generalizing s with
  | nil => exact hs
  | cons op ops ih =>
    simp only [List.foldl_cons]
    exact ih (applyWhen s op) (applyWhen_thread s op)

/-- Content and advisory count of a push sequence, generalized over the
starting queue. -/
theorem enqueueAll_drop_count {α : Type} (C : Nat) (hC : 0 < C) :
    ∀ (xs q : List α), q.length ≤ C →
      (enqueueAll C q xs).1 = (q ++ xs).drop (q.length + xs.length - C) ∧
      (enqueueAll C q xs).2 = q.length + xs.length - C := by
  intro xs
  induction xs with
  | nil =>
    intro q hq
    refine ⟨?_, ?_⟩ <;> simp [enqueueAll, Nat.sub_eq_zero_of_le hq]
  | cons x xs ih =>
    intro q hq
    cases hf : queueFull C q with
    | true =>
      have hfull : 0 < C ∧ C ≤ q.length := by
        have := hf
        simp [queueFull] at this
        exact this
      have hlen : q.length = C := le_antisymm hq hfull.2
      have h1 : 1 ≤ q.length := by omega
      have hq' : (q.drop 1 ++ [x]).length ≤ C := by
        simp [List.length_drop]
        omega
      obtain ⟨ih1, ih2⟩ := ih (q.drop 1 ++ [x]) hq'
      have hstep1 : (enqueueAll C q (x :: xs)).1 =
          (enqueueAll C (q.drop 1 ++ [x]) xs).1 := by
        simp [enqueueAll, enqueueEvent, hf]
      have hstep2 : (enqueueAll C q (x :: xs)).2 =
          1 + (enqueueAll C (q.drop 1 ++ [x]) xs).2 := by
        simp [enqueueAll, enqueueEvent, hf]
      refine ⟨?_, ?_⟩
      · rw [hstep1, ih1]
        have hL : (q.drop 1 ++ [x]).length + xs.length - C = xs.length := by
          simp [List.length_drop]
          omega
        rw [hL]
        have hq2 : q.drop 1 ++ [x] ++ xs = (q ++ x :: xs).drop 1 := by
          rw [List.drop_append_of_le_length h1]
          simp
        rw [hq2, List.drop_drop]
        congr 1
        simp
        omega
      · rw [hstep2, ih2]
        simp [List.length_drop]
        omega
    | false =>
      have hlt : q.length < C := by
        have := hf
        simp [queueFull] at this
        omega
      have hq' : (q ++ [x]).length ≤ C := by
        simp
        omega
      obtain ⟨ih1, ih2⟩ := ih (q ++ [x]) hq'
      have hstep1 : (enqueueAll C q (x :: xs)).1 =
          (enqueueAll C (q ++ [x]) xs).1 := by
        simp [enqueueAll, enqueueEvent, hf]
      have hstep2 : (enqueueAll C q (x :: xs)).2 =
          (enqueueAll C (q ++ [x]) xs).2 := by
        simp [enqueueAll, enqueueEvent, hf]
      refine ⟨?_, ?_⟩
      · rw [hstep1, ih1]
        have hL : (q ++ [x]).length + xs.length - C =
            q.length + (x :: xs).length - C := by
          simp
          omega
        rw [hL]
        congr 1
        simp
      · rw [hstep2, ih2]
        simp
        omega

/-! ## Claim theorems -/

/-- C1: the claim fails on the code.  `read` (via its `except Empty`
handler) does return `none` when the buffer stays empty through a finite
timeout, but the dispatch thread's loop in `_run_callbacks` calls
`Queue.get(timeout=0.1)` directly with no `Empty` handler, so one empty
timeout period raises `Empty` out of the loop and terminates the dispatch
thread with an exception. -/
theorem run_callbacks_raises_on_empty_queue :
    (stickRead (initState Nat 100)).2.1 = none ∧
    (runCallbacksIter dispatchEmptyState none).2.2 = .emptyRaised :=
  ⟨rfl, rfl⟩

/-- C2: the claim fails on the code.  With handlers registered for `up`
and `down` only, an incoming `left` event is consumed from the queue, but
after the swallowed `KeyError` the call `cb(event)` at stick.py line 182
still runs: on the first miss `cb` is an unbound local (`NameError`), and
after a previous hit it invokes the stale handler on the wrong event. -/
theorem dispatch_miss_not_silent :
    (runCallbacksIter upDownLeftState none).2.2 = .unboundLocal ∧
    (runCallbacksIter upDownLeftState none).1.buffer = [] ∧
    (runCallbacksIter upDownLeftState (some 1)).2.2 =
      .staleInvoke 1 { timestamp := 0, direction := .left, action := .pressed } :=
  ⟨rfl, rfl, rfl⟩

/-- C3: pushing N > C events into a queue of capacity C > 0 leaves exactly
the most recent C events in original relative order, emits exactly N - C
buffer-full advisories, and the queue length never exceeds C after any
prefix of the pushes. -/
theorem bounded_queue_overflow_policy (C k : Nat) (xs : List InputEvent)
    (hC : 0 < C) (hN : C < xs.length) :
    (enqueueAll C [] xs).1 = xs.drop (xs.length - C) ∧
    ((enqueueAll C [] xs).1).length = C ∧
    (enqueueAll C [] xs).2 = xs.length - C ∧
    ((enqueueAll C [] (xs.take k)).1).length ≤ C := by
  obtain ⟨h1, h2⟩ := enqueueAll_drop_count C hC xs [] (by simp)
  obtain ⟨h3, _⟩ := enqueueAll_drop_count C hC (xs.take k) [] (by simp)
  simp only [List.nil_append, List.length_nil, Nat.zero_add] at h1 h2 h3
  refine ⟨h1, ?_, h2, ?_⟩
  · rw [h1]
    simp [List.length_drop]
    omega
  · rw [h3]
    simp [List.length_drop, List.length_take]
    omega

/-- Witness for C3 at capacity 2 with three pushes. -/
theorem bounded_queue_overflow_policy_witness :
    0 < 2 ∧ 2 < sampleEvents.length ∧
    ((enqueueAll 2 [] sampleEvents).1 = sampleEvents.drop 1 ∧
     ((enqueueAll 2 [] sampleEvents).1).length = 2 ∧
     (enqueueAll 2 [] sampleEvents).2 = 1 ∧
     ((enqueueAll 2 [] (sampleEvents.take 1)).1).length ≤ 2) :=
  ⟨by decide, by decide,
   bounded_queue_overflow_policy 2 1 sampleEvents (by decide) (by decide)⟩

/-- C4: the claim fails on the code.  The direction table in `_read_stick`
never consults the stored `_rotate`: a KEY_UP press parses to direction
`up` under every stored rotation, including 180, where the spec's
remapping demands `down`.  (The class docstring states that `rotate`
"alters the orientation of events".) -/
theorem read_stick_ignores_rotate (rot : Option Int) :
    (readStickStep { initState Unit 100 with rotate? := rot } upRecord).2 =
      .enqueued upEvent false ∧
    upEvent.direction = .up ∧
    rotateDirection 180 .up = .down ∧
    Direction.up ≠ Direction.down := by
  refine ⟨rfl, rfl, by decide, by decide⟩

/-- C5: `_set_rotate` raises `ValueError` exactly on values that are not
multiples of 90 (leaving `_rotate` untouched, since the raise precedes
the assignment), and stores accepted values normalized by `% 360` into
[0, 360), with 360 stored as 0 and -90 stored as 270. -/
theorem set_rotate_validates_and_normalizes (s : StickState Unit) (v : Int) :
    (setRotate s v = .error .valueError ↔ ¬ (90 ∣ v)) ∧
    ((90 : Int) ∣ v → setRotate s v = .ok { s with rotate? := some (v % 360) }) ∧
    0 ≤ v % 360 ∧ v % 360 < 360 ∧
    setRotate s 360 = .ok { s with rotate? := some 0 } ∧
    setRotate s (-90) = .ok { s with rotate? := some 270 } := by
  have hiff : v % 90 = 0 ↔ (90 : Int) ∣ v :=
    ⟨Int.dvd_of_emod_eq_zero, Int.emod_eq_zero_of_dvd⟩
  refine ⟨?_, ?_, Int.emod_nonneg v (by norm_num),
    Int.emod_lt_of_pos v (by norm_num), rfl, rfl⟩
  · constructor
    · intro h hd
      have h0 : v % 90 = 0 := hiff.mpr hd
      simp [setRotate, h0] at h
    · intro hd
      have h0 : v % 90 ≠ 0 := fun h => hd (hiff.mp h)
      simp [setRotate, h0]
  · intro hd
    have h0 : v % 90 = 0 := hiff.mpr hd
    simp [setRotate, h0]

/-- Witness for C5 at -90. -/
theorem set_rotate_validates_and_normalizes_witness :
    (90 : Int) ∣ (-90) ∧
    setRotate (initState Unit 100) (-90) =
      .ok { initState Unit 100 with rotate? := some 270 } :=
  ⟨by decide,
   (set_rotate_validates_and_normalizes (initState Unit 100) (-90)).2.1 (by decide)⟩

/-- C6: `_read_stick` discards any record whose type is not `EV_KEY`; for
key records it maps the code through the fixed 5-entry direction table and
the value through the fixed action table, composes the timestamp as
seconds plus microseconds over 1000000, and enqueues the event
(108 maps to `down` and 1 to `pressed`, so the concrete record parses to a
pressed `down` event); an unmapped code or value raises `KeyError`. -/
theorem read_stick_parse_spec (s : StickState Unit) (r : RawRecord) :
    (r.type ≠ EV_KEY → readStickStep s r = (s, .skipped)) ∧
    (∀ d a, r.type = EV_KEY → directionOfCode r.code = some d →
      actionOfValue r.value = some a →
      readStickStep s r =
        ({ s with buffer := (enqueueEvent s.maxEvents s.buffer
              { timestamp := (r.tv_sec : Rat) + (r.tv_usec : Rat) / 1000000
                direction := d
                action := a }).1 },
         .enqueued
           { timestamp := (r.tv_sec : Rat) + (r.tv_usec : Rat) / 1000000
             direction := d
             action := a }
           (queueFull s.maxEvents s.buffer))) ∧
    (r.type = EV_KEY →
      directionOfCode r.code = none ∨ actionOfValue r.value = none →
      (readStickStep s r).2 = .keyErr (queueFull s.maxEvents s.buffer)) ∧
    directionOfCode KEY_DOWN = some .down ∧
    actionOfValue STATE_PRESS = some .pressed ∧
    (readStickStep (initState Unit 100) downRecord).2 = .enqueued downEvent false := by
  refine ⟨?_, ?_, ?_, rfl, rfl, rfl⟩
  · intro h
    simp [readStickStep, h]
  · intro d a ht hd ha
    cases hw : queueFull s.maxEvents s.buffer with
    | true => simp [readStickStep, ht, hd, ha, enqueueEvent, hw]
    | false => simp [readStickStep, ht, hd, ha, enqueueEvent, hw]
  · intro ht hcase
    rcases hcase with hd | ha
    · cases hv : actionOfValue r.value <;> simp [readStickStep, ht, hd, hv]
    · cases hd2 : directionOfCode r.code <;> simp [readStickStep, ht, hd2, ha]

/-- Witness for C6 at the concrete down-press record. -/
theorem read_stick_parse_spec_witness :
    downRecord.type = EV_KEY ∧
    directionOfCode downRecord.code = some .down ∧
    actionOfValue downRecord.value = some .pressed ∧
    readStickStep (initState Unit 100) downRecord =
      ({ initState Unit 100 with buffer := [downEvent] },
       .enqueued downEvent false) :=
  ⟨rfl, rfl, rfl,
   (read_stick_parse_spec (initState Unit 100) downRecord).2.1
     .down .pressed rfl rfl rfl⟩

/-- C7: after any sequence of `when_up`/`when_down`/`when_left`/
`when_right`/`when_enter` setter calls on a fresh `SenseStick`, a
callbacks-thread handle (of which the state carries at most one) exists
exactly when the callbacks dict is non-empty: the registration that makes
the dict non-empty starts the thread, and the removal that empties it
signals `_callbacks_close`, joins, and clears the handle. -/
theorem dispatch_thread_iff_callbacks (ops : List (WhenOp Nat)) :
    (ops.foldl applyWhen (initState Nat 100)).callbacksThread =
      callbacksNonempty (ops.foldl applyWhen (initState Nat 100)) :=
  foldl_applyWhen_thread ops (initState Nat 100) rfl

/-- C8: `close` is idempotent: applied twice it equals applied once, and
a first call on a state whose reader thread exists signals `_closing` and
clears both thread handles, so every later call finds `_read_thread`
cleared and does nothing. -/
theorem close_idempotent_spec (s : StickState Unit) :
    close (close s) = close s ∧
    (s.readThread = true →
      (close s).readThread = false ∧ (close s).callbacksThread = false ∧
      (close s).closing = true) := by
  constructor
  · by_cases h : s.readThread = true
    · simp [close, h]
    · simp [close, h]
  · intro h
    simp [close, h]

/-- Witness for C8 on a fresh state. -/
theorem close_idempotent_spec_witness :
    (initState Unit 100).readThread = true ∧
    ((close (initState Unit 100)).readThread = false ∧
     (close (initState Unit 100)).callbacksThread = false ∧
     (close (initState Unit 100)).closing = true) :=
  ⟨rfl, (close_idempotent_spec (initState Unit 100)).2 rfl⟩

/-- C9: `__init__` initializes the queue, flags, and threads but never
assigns `_rotate`, so reading the `rotate` property of a newly
constructed `SenseStick` raises `AttributeError`. -/
theorem rotate_unset_after_init (H : Type) (m : Nat) :
    getRotate (initState H m) = .error .attributeError := rfl

/-- C10: assigning any value to the facade's `rotation` property writes
the plain `rotation` attribute on the stick — distinct from the validated
`rotate` property — with no validation or normalization and no effect on
the value `rotate` returns; in particular 45 is accepted there while the
stick's own `rotate` setter rejects it. -/
theorem facade_rotation_bypasses_rotate (s : StickState Unit) (v : Int) :
    (facadeSetRotation s v).rotation? = some v ∧
    (facadeSetRotation s v).rotate? = s.rotate? ∧
    getRotate (facadeSetRotation s v) = getRotate s ∧
    facadeSetRotation s 45 = { s with rotation? := some 45 } ∧
    setRotate s 45 = .error .valueError :=
  ⟨rfl, rfl, rfl, rfl, rfl⟩
